import Mathlib

/-!
Verification of `src/netem_cycle.py`, a scheduler that keeps netem
impairment on an interface except during a daily healthy window
(03:00-04:00 UTC).  The embedding models:

* UTC instants (`DateTime`) at microsecond resolution, matching Python
  `datetime` objects in the UTC timezone; instants compare and subtract
  through `toUsec`.
* the external environment (`Env`): whether netem is actually configured
  on the interface, and which subprocess invocations fail (raising
  `subprocess.CalledProcessError`) together with the remove command's
  return code.
* the operations `has_netem`, `impair`, `heal`, `in_healthy_window`, and
  the two sleep computations of `main`'s loop body, each translated
  clause by clause from the source.

Commands counted in the traces are the state-changing invocations
(`tc qdisc add` / `tc qdisc del`); the probe's `tc qdisc show` is a
read-only query.  Durations are kept in microseconds so that Python's
float `total_seconds()` arithmetic (exact on these values) becomes exact
natural-number arithmetic.
-/

namespace NetemCycle

/-- HEALTHY_START_HOUR = 3 (source line 21). -/
def HEALTHY_START_HOUR : Nat := 3

/-- HEALTHY_END_HOUR = 4 (source line 22). -/
def HEALTHY_END_HOUR : Nat := 4

/-- CHECK_INTERVAL = 30 seconds (source line 24). -/
def CHECK_INTERVAL : Nat := 30

/-- Microseconds per second, for converting the source's second-valued
constants into the microsecond-resolution model. -/
def usecPerSec : Nat := 1000000

/-- A UTC instant, with the same fields Python `datetime` exposes to this
program: a day index plus hour/minute/second/microsecond within the day. -/
structure DateTime where
  day : Nat
  hour : Nat
  minute : Nat
  second : Nat
  usec : Nat
  hour_lt : hour < 24
  minute_lt : minute < 60
  second_lt : second < 60
  usec_lt : usec < 1000000

/-- Total microseconds since the epoch of day 0; `datetime` comparison and
subtraction coincide with comparison and subtraction of this value. -/
def toUsec (t : DateTime) : Nat :=
  ((((t.day * 24 + t.hour) * 60 + t.minute) * 60 + t.second)) * 1000000 + t.usec

/-- Python `now.replace(hour := h, minute := 0, second := 0, microsecond := 0)`. -/
def replaceHour (t : DateTime) (h : Nat) (hh : h < 24) : DateTime :=
  ⟨t.day, h, 0, 0, 0, hh, by norm_num, by norm_num, by norm_num⟩

/-- Python `t + timedelta(days := 1)`. -/
def addDay (t : DateTime) : DateTime :=
  { t with day := t.day + 1 }

/-- in_healthy_window (source lines 55-57):
`HEALTHY_START_HOUR <= h < HEALTHY_END_HOUR` on `h = now_utc.hour`. -/
def in_healthy_window (now_utc : DateTime) : Bool :=
  decide (HEALTHY_START_HOUR ≤ now_utc.hour ∧ now_utc.hour < HEALTHY_END_HOUR)

/-- State-changing subprocess commands the program can issue. -/
inductive Cmd where
  | apply
  | remove
deriving DecidableEq, Repr

/-- The external world as the program can observe and affect it: whether
netem is configured on the interface, which subprocess invocations raise
`CalledProcessError`, and the return code carried by a failing remove. -/
structure Env where
  netem : Bool
  probeFails : Bool
  applyFails : Bool
  removeFails : Bool
  removeCode : Int
deriving DecidableEq, Repr

/-- Result of one reconciliation action: the environment afterwards, the
state-changing commands issued, and the stderr lines printed. -/
structure ActResult where
  env : Env
  cmds : List Cmd
  err : List String
deriving DecidableEq, Repr

/-- has_netem (source lines 29-34): query `tc qdisc show`; on
`CalledProcessError` return false, otherwise report whether the output
contains the netem marker (i.e. whether netem is configured). -/
def has_netem (e : Env) : Bool :=
  if e.probeFails then false else e.netem

/-- impair (source lines 36-43): if the probe reports netem present,
return without issuing anything; otherwise run IMPAIR_CMD, and on
`CalledProcessError` print a message to stderr (non-fatal). -/
def impair (e : Env) : ActResult :=
  if has_netem e then
    ⟨e, [], []⟩
  else if e.applyFails then
    ⟨e, [Cmd.apply], ["failed to apply impairment"]⟩
  else
    ⟨{ e with netem := true }, [Cmd.apply], []⟩

/-- heal (source lines 45-53): if the probe reports netem absent, return
without issuing anything; otherwise run HEAL_CMD, and on
`CalledProcessError` print a message to stderr only when the return code
is not 2 (code 2 means "already absent" and is treated as success,
silently). -/
def heal (e : Env) : ActResult :=
  if has_netem e then
    if e.removeFails then
      if e.removeCode ≠ 2 then
        ⟨e, [Cmd.remove], ["failed to remove impairment"]⟩
      else
        ⟨e, [Cmd.remove], []⟩
    else
      ⟨{ e with netem := false }, [Cmd.remove], []⟩
  else
    ⟨e, [], []⟩

lemma start_hour_lt : HEALTHY_START_HOUR < 24 := by norm_num [HEALTHY_START_HOUR]

lemma end_hour_lt : HEALTHY_END_HOUR < 24 := by norm_num [HEALTHY_END_HOUR]

/-- The healthy branch's `next_transition` (source line 66):
`now.replace(hour := HEALTHY_END_HOUR, minute := 0, second := 0, microsecond := 0)`. -/
def endToday (now : DateTime) : DateTime :=
  replaceHour now HEALTHY_END_HOUR end_hour_lt

/-- The healthy-branch sleep of main (source lines 64-72), in
microseconds: if `next_transition` is not in the future sleep
CHECK_INTERVAL, else sleep `(next_transition - now).total_seconds() + 1`. -/
def healthySleepUs (now : DateTime) : Nat :=
  if toUsec (endToday now) ≤ toUsec now then
    CHECK_INTERVAL * usecPerSec
  else
    (toUsec (endToday now) - toUsec now) + 1 * usecPerSec

/-- The impaired branch's `next_start` before adjustment (source line 75):
`now.replace(hour := HEALTHY_START_HOUR, minute := 0, second := 0, microsecond := 0)`. -/
def startToday (now : DateTime) : DateTime :=
  replaceHour now HEALTHY_START_HOUR start_hour_lt

/-- The impaired-branch next boundary of main (source lines 75-77):
`next_start`, pushed to tomorrow when not strictly in the future. -/
def nextStart (now : DateTime) : DateTime :=
  if toUsec (startToday now) ≤ toUsec now then addDay (startToday now)
  else startToday now

/-- The impaired-branch sleep of main (source lines 78-80), in
microseconds: `min((next_start - now).total_seconds(), CHECK_INTERVAL)`. -/
def impairedSleepUs (now : DateTime) : Nat :=
  min (toUsec (nextStart now) - toUsec now) (CHECK_INTERVAL * usecPerSec)

/-- Result of one iteration of main's while loop: the environment after
reconciling, the commands issued, the stderr lines, and the sleep. -/
structure StepResult where
  env : Env
  cmds : List Cmd
  err : List String
  sleepUs : Nat
deriving DecidableEq, Repr

/-- One iteration of main's loop body (source lines 62-80): read the
clock, reconcile with heal or impair according to the window, and compute
the sleep for this branch. -/
def step (e : Env) (now : DateTime) : StepResult :=
  if in_healthy_window now then
    let r := heal e
    ⟨r.env, r.cmds, r.err, healthySleepUs now⟩
  else
    let r := impair e
    ⟨r.env, r.cmds, r.err, impairedSleepUs now⟩

/-- Number of apply commands in a trace. -/
def countApply (cs : List Cmd) : Nat :=
  (cs.filter (fun c => c = Cmd.apply)).length

/-- Number of remove commands in a trace. -/
def countRemove (cs : List Cmd) : Nat :=
  (cs.filter (fun c => c = Cmd.remove)).length

/-- A window-start instant: the hour is HEALTHY_START_HOUR and the
sub-hour fields are zero. -/
def isWindowStart (b : DateTime) : Prop :=
  b.hour = HEALTHY_START_HOUR ∧ b.minute = 0 ∧ b.second = 0 ∧ b.usec = 0

instance (b : DateTime) : Decidable (isWindowStart b) := by
  unfold isWindowStart; infer_instance

/-- 02:10:00 UTC on day 0. -/
def t0210 : DateTime :=
  ⟨0, 2, 10, 0, 0, by norm_num, by norm_num, by norm_num, by norm_num⟩

/-- 03:00:00 UTC on day 0. -/
def t0300 : DateTime :=
  ⟨0, 3, 0, 0, 0, by norm_num, by norm_num, by norm_num, by norm_num⟩

/-- 03:10:00 UTC on day 0. -/
def t0310 : DateTime :=
  ⟨0, 3, 10, 0, 0, by norm_num, by norm_num, by norm_num, by norm_num⟩

/-- 04:00:00 UTC on day 0. -/
def t0400 : DateTime :=
  ⟨0, 4, 0, 0, 0, by norm_num, by norm_num, by norm_num, by norm_num⟩

/-- 05:00:00 UTC on day 0. -/
def t0500 : DateTime :=
  ⟨0, 5, 0, 0, 0, by norm_num, by norm_num, by norm_num, by norm_num⟩

/-- 23:50:00 UTC on day 0. -/
def t2350 : DateTime :=
  ⟨0, 23, 50, 0, 0, by norm_num, by norm_num, by norm_num, by norm_num⟩

lemma toUsec_replaceHour (t : DateTime) (h : Nat) (hh : h < 24) :
    toUsec (replaceHour t h hh) = (t.day * 24 + h) * 3600000000 := by
  simp [toUsec, replaceHour]; ring

lemma toUsec_addDay (t : DateTime) :
    toUsec (addDay t) = toUsec t + 86400000000 := by
  simp [toUsec, addDay]; ring

lemma day_mul_le_toUsec (t : DateTime) :
    t.day * 86400000000 ≤ toUsec t := by
  obtain ⟨d, h, m, s, u, hh, hm, hs, hu⟩ := t
  simp [toUsec]; omega

lemma toUsec_lt_day_succ (t : DateTime) :
    toUsec t < (t.day + 1) * 86400000000 := by
  obtain ⟨d, h, m, s, u, hh, hm, hs, hu⟩ := t
  simp [toUsec]; omega

/-- The impaired branch's next boundary is strictly in the future and at
most one day away. -/
lemma nextStart_spec (now : DateTime) :
    toUsec now < toUsec (nextStart now) ∧
    toUsec (nextStart now) - toUsec now ≤ 86400 * usecPerSec := by
  have hub := toUsec_lt_day_succ now
  have hlb := day_mul_le_toUsec now
  simp only [nextStart, startToday, usecPerSec, HEALTHY_START_HOUR]
  split <;> rename_i hc
  · rw [toUsec_addDay, toUsec_replaceHour]
    rw [toUsec_replaceHour] at hc
    omega
  · rw [toUsec_replaceHour]
    rw [toUsec_replaceHour] at hc
    omega

/-- The healthy-branch sleep is always positive. -/
lemma healthySleepUs_pos (now : DateTime) : 0 < healthySleepUs now := by
  unfold healthySleepUs
  split
  · norm_num [CHECK_INTERVAL, usecPerSec]
  · omega

/-- The impaired-branch sleep is always positive. -/
lemma impairedSleepUs_pos (now : DateTime) : 0 < impairedSleepUs now := by
  have h := nextStart_spec now
  unfold impairedSleepUs
  exact lt_min (by omega) (by norm_num [CHECK_INTERVAL, usecPerSec])

lemma toUsec_lt_next_hour (t : DateTime) :
    toUsec t < (t.day * 24 + t.hour + 1) * 3600000000 := by
  obtain ⟨d, h, m, s, u, hh, hm, hs, hu⟩ := t
  simp [toUsec]; omega

/-- heal prints at most one stderr line. -/
lemma heal_err_len (e : Env) : (heal e).err.length ≤ 1 := by
  obtain ⟨n, p, a, r, c⟩ := e
  cases n <;> cases p <;> cases r <;> by_cases hc : c = 2 <;>
    simp [heal, has_netem, hc]

/-- impair prints at most one stderr line. -/
lemma impair_err_len (e : Env) : (impair e).err.length ≤ 1 := by
  obtain ⟨n, p, a, r, c⟩ := e
  cases n <;> cases p <;> cases a <;> simp [impair, has_netem]

/-- Interface impaired, all subprocess invocations succeed. -/
def envImpairedOk : Env := ⟨true, false, false, false, 0⟩

/-- Interface clean, all subprocess invocations succeed. -/
def envCleanOk : Env := ⟨false, false, false, false, 0⟩

/-- Interface impaired but the probe raises CalledProcessError. -/
def envProbeDown : Env := ⟨true, true, false, false, 0⟩

/-- Interface impaired; the remove command fails with return code 2. -/
def envRemoveGone : Env := ⟨true, false, false, true, 2⟩

/-- Interface impaired; the remove command fails with return code 5. -/
def envRemoveErr : Env := ⟨true, false, false, true, 5⟩

/-- Claim C1: for every UTC time `t`, the desired state computed by
`in_healthy_window` is Healthy exactly when
`HEALTHY_START_HOUR ≤ t.hour < HEALTHY_END_HOUR`; at
`t.hour = HEALTHY_START_HOUR` it is Healthy, and at
`t.hour = HEALTHY_END_HOUR` it is not Healthy. -/
theorem in_healthy_window_iff (t : DateTime) :
    (in_healthy_window t = true ↔
      (HEALTHY_START_HOUR ≤ t.hour ∧ t.hour < HEALTHY_END_HOUR)) ∧
    (t.hour = HEALTHY_START_HOUR → in_healthy_window t = true) ∧
    (t.hour = HEALTHY_END_HOUR → in_healthy_window t = false) := by
  refine ⟨by simp [in_healthy_window], ?_, ?_⟩ <;> intro h <;>
    simp [in_healthy_window, h, HEALTHY_START_HOUR, HEALTHY_END_HOUR]

/-- Witness for C1 at the two boundary instants 03:00 and 04:00. -/
theorem in_healthy_window_iff_witness :
    in_healthy_window t0300 = true ∧ in_healthy_window t0400 = false :=
  ⟨(in_healthy_window_iff t0300).2.1 rfl, (in_healthy_window_iff t0400).2.2 rfl⟩

/-- Claim C2: reconciliation is minimal: when the probe reports impaired,
impair issues no command; when it reports clean, impair issues exactly one
apply; and two consecutive impair (resp. heal) calls with no external
interference (probe accurate, commands succeed) issue at most one apply
(resp. remove) in total. -/
theorem impair_heal_minimal (e : Env) :
    (has_netem e = true → (impair e).cmds = []) ∧
    (has_netem e = false → (impair e).cmds = [Cmd.apply]) ∧
    (e.probeFails = false → e.applyFails = false →
      countApply ((impair e).cmds ++ (impair (impair e).env).cmds) ≤ 1) ∧
    (e.probeFails = false → e.removeFails = false →
      countRemove ((heal e).cmds ++ (heal (heal e).env).cmds) ≤ 1) := by
  obtain ⟨n, p, a, r, c⟩ := e
  cases n <;> cases p <;> cases a <;> cases r <;>
    simp [impair, heal, has_netem, countApply, countRemove]

/-- Witness for C2 on concrete environments with no failures. -/
theorem impair_heal_minimal_witness :
    (impair envImpairedOk).cmds = [] ∧
    (impair envCleanOk).cmds = [Cmd.apply] ∧
    countApply ((impair envCleanOk).cmds ++ (impair (impair envCleanOk).env).cmds) ≤ 1 ∧
    countRemove ((heal envImpairedOk).cmds ++ (heal (heal envImpairedOk).env).cmds) ≤ 1 :=
  ⟨(impair_heal_minimal envImpairedOk).1 rfl,
   (impair_heal_minimal envCleanOk).2.1 rfl,
   (impair_heal_minimal envCleanOk).2.2.1 rfl rfl,
   (impair_heal_minimal envImpairedOk).2.2.2 rfl rfl⟩

/-- Claim C3: in the Impaired state the next boundary is a window-start
instant, strictly in the future, at most a day away; it is today's
start-of-window instant when that is still in the future and the same
instant tomorrow otherwise; and the sleep is exactly
`min(time-until-boundary, CHECK_INTERVAL)`. -/
theorem impaired_boundary_sleep (now : DateTime) :
    isWindowStart (nextStart now) ∧
    toUsec now < toUsec (nextStart now) ∧
    toUsec (nextStart now) - toUsec now ≤ 86400 * usecPerSec ∧
    (toUsec now < toUsec (startToday now) → nextStart now = startToday now) ∧
    (toUsec (startToday now) ≤ toUsec now →
      nextStart now = addDay (startToday now)) ∧
    impairedSleepUs now =
      min (toUsec (nextStart now) - toUsec now) (CHECK_INTERVAL * usecPerSec) := by
  obtain ⟨h1, h2⟩ := nextStart_spec now
  refine ⟨?_, h1, h2, ?_, ?_, rfl⟩
  · unfold nextStart
    split <;> simp [isWindowStart, startToday, replaceHour, addDay]
  · intro h
    unfold nextStart
    rw [if_neg (by omega)]
  · intro h
    unfold nextStart
    rw [if_pos h]

/-- Witness for C3: at 02:10 the boundary is today's 03:00; at 23:50 it
is tomorrow's 03:00. -/
theorem impaired_boundary_sleep_witness :
    nextStart t0210 = startToday t0210 ∧
    nextStart t2350 = addDay (startToday t2350) :=
  ⟨(impaired_boundary_sleep t0210).2.2.2.1 (by decide),
   (impaired_boundary_sleep t2350).2.2.2.2.1 (by decide)⟩

/-- Claim C4: in the Healthy branch, when now is strictly before the
end-of-window instant, the sleep is exactly the time until that instant
plus one second of epsilon, so the wake-up target lands at or after the
boundary; when the instant has already passed, the sleep is the fixed
poll interval CHECK_INTERVAL. -/
theorem healthy_sleep_target (now : DateTime) :
    (toUsec now < toUsec (endToday now) →
      healthySleepUs now = (toUsec (endToday now) - toUsec now) + 1 * usecPerSec ∧
      toUsec (endToday now) ≤ toUsec now + healthySleepUs now) ∧
    (toUsec (endToday now) ≤ toUsec now →
      healthySleepUs now = CHECK_INTERVAL * usecPerSec) := by
  constructor
  · intro h
    have he : healthySleepUs now =
        (toUsec (endToday now) - toUsec now) + 1 * usecPerSec := by
      unfold healthySleepUs
      rw [if_neg (by omega)]
    refine ⟨he, ?_⟩
    rw [he]
    have hu : 0 < usecPerSec := by norm_num [usecPerSec]
    omega
  · intro h
    unfold healthySleepUs
    rw [if_pos h]

/-- Witness for C4 at 03:10 (before the boundary) and 05:00 (after it). -/
theorem healthy_sleep_target_witness :
    toUsec (endToday t0310) ≤ toUsec t0310 + healthySleepUs t0310 ∧
    healthySleepUs t0500 = CHECK_INTERVAL * usecPerSec :=
  ⟨((healthy_sleep_target t0310).1 (by decide)).2,
   (healthy_sleep_target t0500).2 (by decide)⟩

/-- Claim C5: on probe failure has_netem reports false, so heal issues no
command and impair issues an apply command, even when impairment is
actually present. -/
theorem probe_failure_fallback (e : Env) (h : e.probeFails = true) :
    has_netem e = false ∧ (heal e).cmds = [] ∧ (impair e).cmds = [Cmd.apply] := by
  have hn : has_netem e = false := by simp [has_netem, h]
  refine ⟨hn, by simp [heal, hn], ?_⟩
  cases ha : e.applyFails <;> simp [impair, hn, ha]

/-- Witness for C5: the probe fails while impairment is present. -/
theorem probe_failure_fallback_witness :
    has_netem envProbeDown = false ∧ (heal envProbeDown).cmds = [] ∧
    (impair envProbeDown).cmds = [Cmd.apply] :=
  probe_failure_fallback envProbeDown rfl

/-- Claim C6: when heal attempts a removal and the command fails, a
failure with return code 2 (already absent) produces no stderr output,
while any other code produces a logged stderr line; in both cases heal
returns normally with exactly the one removal command issued. -/
theorem remove_failure_handling (e : Env) (h1 : has_netem e = true)
    (h2 : e.removeFails = true) :
    (heal e).cmds = [Cmd.remove] ∧ ((heal e).err = [] ↔ e.removeCode = 2) := by
  by_cases hc : e.removeCode = 2 <;> simp [heal, h1, h2, hc]

/-- Witness for C6: remove fails with code 2 and with code 5. -/
theorem remove_failure_handling_witness :
    ((heal envRemoveGone).cmds = [Cmd.remove] ∧
      ((heal envRemoveGone).err = [] ↔ envRemoveGone.removeCode = 2)) ∧
    ((heal envRemoveErr).cmds = [Cmd.remove] ∧
      ((heal envRemoveErr).err = [] ↔ envRemoveErr.removeCode = 2)) :=
  ⟨remove_failure_handling envRemoveGone rfl rfl,
   remove_failure_handling envRemoveErr rfl rfl⟩

/-- Claim C7: no subprocess failure is fatal: for every combination of
probe, apply and remove failures and every time, the loop iteration
completes with at most one logged stderr line and a positive sleep, so
the loop continues. -/
theorem step_total_nonfatal (e : Env) (now : DateTime) :
    0 < (step e now).sleepUs ∧ (step e now).err.length ≤ 1 := by
  have h1 := healthySleepUs_pos now
  have h2 := impairedSleepUs_pos now
  have h3 := heal_err_len e
  have h4 := impair_err_len e
  simp only [step]
  split <;> simp_all

/-- Claim C8 counterexample: at 23:50 UTC the distance to tomorrow's
03:00 boundary is 11400 seconds, not the claimed 27300 seconds. -/
theorem scenario_2350_not_27300 :
    ¬ (toUsec (nextStart t2350) - toUsec t2350 = 27300 * usecPerSec) := by
  decide

/-- Claim C8 as amended: for now = 23:50 UTC with window [3,4) the state
is Impaired, the next boundary is tomorrow's 03:00 instant, 11400 seconds
away, and the sleep is min(11400 s, CHECK_INTERVAL). -/
theorem scenario_2350 :
    in_healthy_window t2350 = false ∧
    isWindowStart (nextStart t2350) ∧
    (nextStart t2350).day = t2350.day + 1 ∧
    toUsec (nextStart t2350) - toUsec t2350 = 11400 * usecPerSec ∧
    impairedSleepUs t2350 = min (11400 * usecPerSec) (CHECK_INTERVAL * usecPerSec) := by
  refine ⟨by decide, by decide, by decide, by decide, by decide⟩

/-- Claim C9: the Healthy-branch defensive fallback is dead code: for
every time inside the healthy window the end-of-window instant is
strictly in the future, so the sleep is always the boundary-targeting
branch, never the fixed poll interval branch. -/
theorem healthy_fallback_dead (now : DateTime)
    (h : in_healthy_window now = true) :
    toUsec now < toUsec (endToday now) ∧
    healthySleepUs now = (toUsec (endToday now) - toUsec now) + 1 * usecPerSec := by
  have hh : now.hour = 3 := by
    simp [in_healthy_window, HEALTHY_START_HOUR, HEALTHY_END_HOUR] at h
    omega
  have hub := toUsec_lt_next_hour now
  have h4 : toUsec (endToday now) = (now.day * 24 + 4) * 3600000000 := by
    simp [endToday, toUsec_replaceHour, HEALTHY_END_HOUR]
  have hlt : toUsec now < toUsec (endToday now) := by omega
  refine ⟨hlt, ?_⟩
  unfold healthySleepUs
  rw [if_neg (by omega)]

/-- Witness for C9 at 03:10, inside the healthy window. -/
theorem healthy_fallback_dead_witness :
    toUsec t0310 < toUsec (endToday t0310) ∧
    healthySleepUs t0310 = (toUsec (endToday t0310) - toUsec t0310) + 1 * usecPerSec :=
  healthy_fallback_dead t0310 (by decide)

/-- Claim C10: in the Impaired branch the sleep duration is strictly
positive and at most CHECK_INTERVAL, so the loop never busy-spins. -/
theorem impaired_sleep_bounds (now : DateTime)
    (_h : in_healthy_window now = false) :
    0 < impairedSleepUs now ∧ impairedSleepUs now ≤ CHECK_INTERVAL * usecPerSec := by
  constructor
  · exact impairedSleepUs_pos now
  · unfold impairedSleepUs
    exact min_le_right _ _

/-- Witness for C10 at 02:10, outside the healthy window. -/
theorem impaired_sleep_bounds_witness :
    0 < impairedSleepUs t0210 ∧
    impairedSleepUs t0210 ≤ CHECK_INTERVAL * usecPerSec :=
  impaired_sleep_bounds t0210 (by decide)

end NetemCycle
